import Mathlib

/-!
Shallow embedding of the sprite-sheet animation core of the repository
(`src/chapter3/src/characters/animation.rs` and the plugin registration in
`src/chapter3/src/characters/mod.rs`).

Conventions of the embedding:
* Rust `usize` frame indices, rows and column counts are modelled as `Nat`.
  The only subtraction in the core is `first + frame_count - 1` in
  `AnimationClip::new`; it underflows in Rust exactly when
  `first + frame_count = 0`, which `clipNewUnderflows` tracks explicitly
  (Nat truncated subtraction would silently yield `0` there).
* Rust `f32` vector components (`Vec2`) are modelled as `Rat` (exact ordered
  arithmetic over the finite floats the code compares).
* Bevy's repeating `Timer` is modelled with `Nat` nanosecond durations:
  `tick` accumulates, wraps modulo the duration on elapse and records how many
  times it finished this tick; `just_finished` is "finished at least once this
  tick"; `reset` zeroes the elapsed accumulator and the finished count, leaving
  the duration unchanged; `set_duration` replaces the duration.
  (`Duration::from_secs_f32(frame_time)` is modelled by storing the per-frame
  duration directly as a `Nat` in the definition.)
* `config.rs` is not among the provided sources; `AnimationType`,
  `AnimationDefinition` and `CharacterEntry` are modelled from the spec and
  from their uses in `animation.rs`.
-/

/-- Closed enumeration of facing directions (`Facing` in `animation.rs`). -/
inductive Facing : Type
  | up
  | left
  | down
  | right
  deriving DecidableEq, Repr

/-- A 2D vector with exact components, standing in for Bevy's `Vec2`. -/
structure Vec2 where
  x : Rat
  y : Rat
  deriving DecidableEq, Repr

namespace Facing

/-- Embeds `Facing::from_direction`: compare `|x|` with `|y|`, strict on `x`
dominance; horizontal branch tests `x > 0`, vertical branch tests `y > 0`. -/
def from_direction (direction : Vec2) : Facing :=
  if |direction.x| > |direction.y| then
    if direction.x > 0 then Facing.right else Facing.left
  else
    if direction.y > 0 then Facing.up else Facing.down

/-- Embeds `Facing::direction_index`: the fixed row-offset map
Up→0, Left→1, Down→2, Right→3. -/
def direction_index : Facing → Nat
  | Facing.up => 0
  | Facing.left => 1
  | Facing.down => 2
  | Facing.right => 3

end Facing

/-- Modelled from the spec: the externally defined closed set of animation
kinds (`AnimationType` lives in the absent `config.rs`; the spec names Walk
and Jump as its members and `AnimationController::default` uses Walk). -/
inductive AnimationType : Type
  | walk
  | jump
  deriving DecidableEq, Repr

/-- Modelled from the spec: per-kind animation definition from the absent
`config.rs` — starting row, frame count, per-frame duration, and whether the
clip occupies 4 consecutive facing rows. The per-frame duration `frame_time`
is stored as nanoseconds (`Nat`). -/
structure AnimationDefinition where
  start_row : Nat
  frame_count : Nat
  frame_time : Nat
  directional : Bool
  deriving DecidableEq, Repr

/-- Modelled from the spec: the per-character config entry from the absent
`config.rs`, restricted to the fields the animation core reads — the atlas
column count and the kind-keyed animation map (the map is modelled as a
function into `Option`, matching `HashMap::get`). -/
structure CharacterEntry where
  atlas_columns : Nat
  animations : AnimationType → Option AnimationDefinition

/-- Embeds the `AnimationController` component: current kind and facing. -/
structure AnimationController where
  current_animation : AnimationType
  facing : Facing
  deriving DecidableEq, Repr

/-- Embeds the `AnimationState` component: the four transition flags. -/
structure AnimationState where
  is_moving : Bool
  was_moving : Bool
  is_jumping : Bool
  was_jumping : Bool
  deriving DecidableEq, Repr

/-- Bevy repeating `Timer`, modelled with nanosecond `Nat` durations.
`finishedCount` is `times_finished_this_tick`. -/
structure Timer where
  duration : Nat
  elapsed : Nat
  finishedCount : Nat
  deriving DecidableEq, Repr

namespace Timer

/-- `Timer::tick(delta)` for a repeating timer with positive duration:
accumulate, and on elapse record the number of completions and keep the
remainder. (A zero-duration repeating Bevy timer reports `u32::MAX`
completions; the config precondition `frame_time > 0` keeps the claims away
from that case, and theorems that touch ticking carry it explicitly.) -/
def tick (t : Timer) (delta : Nat) : Timer :=
  let e := t.elapsed + delta
  if t.duration = 0 then
    { t with elapsed := 0, finishedCount := 4294967295 }
  else if e ≥ t.duration then
    { t with elapsed := e % t.duration, finishedCount := e / t.duration }
  else
    { t with elapsed := e, finishedCount := 0 }

/-- `Timer::just_finished()` for a repeating timer: finished at least once
during the last `tick`. -/
def just_finished (t : Timer) : Bool :=
  t.finishedCount > 0

/-- `Timer::reset()`: zero the elapsed accumulator and the finished signal;
the duration is unchanged. -/
def reset (t : Timer) : Timer :=
  { t with elapsed := 0, finishedCount := 0 }

/-- `Timer::set_duration(d)`. -/
def set_duration (t : Timer) (d : Nat) : Timer :=
  { t with duration := d }

end Timer

/-- Embeds the `AnimationClip` value type: an inclusive frame-index range. -/
structure AnimationClip where
  first : Nat
  last : Nat
  deriving DecidableEq, Repr

namespace AnimationClip

/-- Embeds `AnimationClip::new(row, frame_count, atlas_columns)`:
`first = row * atlas_columns`, `last = first + frame_count - 1`. The `Nat`
subtraction agrees with the Rust `usize` computation except at the underflow
point `first + frame_count = 0`, which `clipNewUnderflows` flags. -/
def new (row frame_count atlas_columns : Nat) : AnimationClip :=
  let first := row * atlas_columns
  { first := first, last := first + frame_count - 1 }

/-- The Rust expression `first + frame_count - 1` in `AnimationClip::new`
underflows `usize` (a panic in debug builds) precisely when
`row * atlas_columns + frame_count = 0`. -/
def clipNewUnderflows (row frame_count atlas_columns : Nat) : Bool :=
  row * atlas_columns + frame_count == 0

/-- Embeds `AnimationClip::start`. -/
def start (c : AnimationClip) : Nat :=
  c.first

/-- Embeds `AnimationClip::contains`: inclusive membership in
`first..=last`. -/
def contains (c : AnimationClip) (index : Nat) : Bool :=
  decide (c.first ≤ index ∧ index ≤ c.last)

/-- Embeds `AnimationClip::next`: loop back to `first` from (or beyond)
`last`, otherwise step to `index + 1`. -/
def next (c : AnimationClip) (index : Nat) : Nat :=
  if index ≥ c.last then c.first else index + 1

/-- Embeds `AnimationClip::is_complete`. -/
def is_complete (c : AnimationClip) (current_index : Nat)
    (timer_finished : Bool) : Bool :=
  decide (current_index ≥ c.last) && timer_finished

end AnimationClip

/-- Embeds `AnimationController::get_clip`: look the current kind up in the
config; on a hit, offset the row by the facing index when directional, and
build the clip. -/
def AnimationController.get_clip (c : AnimationController)
    (config : CharacterEntry) : Option AnimationClip :=
  match config.animations c.current_animation with
  | none => none
  | some d =>
    let row := if d.directional then d.start_row + c.facing.direction_index
               else d.start_row
    some (AnimationClip.new row d.frame_count config.atlas_columns)

/-- The safety-clamp step of `animate_characters` (lines 139–143): if the
current frame index is outside the clip, snap it to the clip's first frame
and reset the timer. -/
def clampFrame (clip : AnimationClip) (index : Nat) (timer : Timer) :
    Nat × Timer :=
  if !clip.contains index then (clip.start, timer.reset) else (index, timer)

/-- The per-entity result of one `animate_characters` invocation: the frame
index and timer written back. -/
structure AnimOut where
  atlasIndex : Nat
  timer : Timer
  deriving DecidableEq, Repr

/-- Embeds the per-entity body of `animate_characters` for one tick:
skip (`none`) when the sprite has no atlas or the current kind is absent from
the config; otherwise clamp, detect transitions, and branch exactly as the
source does. `delta` is this tick's delta-time in nanoseconds. -/
def animateEntity (delta : Nat) (animated : AnimationController)
    (state : AnimationState) (timer : Timer) (atlas : Option Nat)
    (config : CharacterEntry) : Option AnimOut :=
  match atlas with
  | none => none
  | some index =>
    match animated.get_clip config with
    | none => none
    | some clip =>
      match config.animations animated.current_animation with
      | none => none
      | some anim_def =>
        let clamped := clampFrame clip index timer
        let index := clamped.1
        let timer := clamped.2
        let just_started_moving := state.is_moving && !state.was_moving
        let just_stopped_moving := !state.is_moving && state.was_moving
        let just_started_jumping := state.is_jumping && !state.was_jumping
        let just_stopped_jumping := !state.is_jumping && state.was_jumping
        let should_animate := state.is_jumping || state.is_moving
        let animation_changed := just_started_moving || just_started_jumping
                              || just_stopped_moving || just_stopped_jumping
        if animation_changed then
          some { atlasIndex := clip.start
                 timer := ((timer.set_duration anim_def.frame_time).reset) }
        else if should_animate then
          let timer := timer.tick delta
          if timer.just_finished then
            some { atlasIndex := clip.next index, timer := timer }
          else
            some { atlasIndex := index, timer := timer }
        else
          if index ≠ clip.start then
            some { atlasIndex := clip.start, timer := timer }
          else
            some { atlasIndex := index, timer := timer }

/-- Embeds `update_animation_flags` for one entity: commit the current
motion flags into the `was_*` slots. -/
def updateAnimationFlags (state : AnimationState) : AnimationState :=
  { state with was_moving := state.is_moving, was_jumping := state.is_jumping }

/-- Identifiers for the systems `CharactersPlugin::build` registers on the
`Update` schedule (the source name of `init_player_character` is
`initialize_player_character`). -/
inductive SystemId : Type
  | init_player_character
  | switch_character
  | move_player
  | update_jump_state
  | animate_characters
  | update_animation_flags
  deriving DecidableEq, Repr

/-- The `Update`-schedule systems registered by `CharactersPlugin::build`
(`mod.rs` lines 17–24), in tuple order. -/
def charactersPluginUpdateSystems : List SystemId :=
  [SystemId.init_player_character, SystemId.switch_character,
   SystemId.move_player, SystemId.update_jump_state,
   SystemId.animate_characters, SystemId.update_animation_flags]

/-- The ordering constraints `CharactersPlugin::build` attaches to those
systems: none. The systems are added as a plain tuple with no `.chain()`,
`.before()` or `.after()`, and in Bevy a plain tuple imposes no execution
order — the scheduler may run its members in any order each tick. -/
def charactersPluginOrderingConstraints : List (SystemId × SystemId) :=
  []

/-- C4: the direction resolver is total: when `|x| > |y|` it yields Right for
positive `x` and Left otherwise; when `|x| ≤ |y|` (including the zero vector)
it yields Up for positive `y` and Down otherwise; in particular the zero
vector resolves to Down. -/
theorem facing_from_vector_total (v : Vec2) :
    (|v.x| > |v.y| →
      Facing.from_direction v = if v.x > 0 then Facing.right else Facing.left) ∧
    (|v.x| ≤ |v.y| →
      Facing.from_direction v = if v.y > 0 then Facing.up else Facing.down) ∧
    Facing.from_direction ⟨0, 0⟩ = Facing.down := by
  refine ⟨fun h => ?_, fun h => ?_, ?_⟩
  · simp only [Facing.from_direction, if_pos h]
  · simp only [Facing.from_direction, if_neg (not_lt.mpr h)]
  · simp [Facing.from_direction]

theorem facing_from_vector_total_witness :
    Facing.from_direction ⟨3, 1⟩ = Facing.right ∧
    Facing.from_direction ⟨0, 0⟩ = Facing.down := by
  constructor
  · have h := (facing_from_vector_total ⟨3, 1⟩).1 (by norm_num)
    simpa using h
  · exact (facing_from_vector_total ⟨0, 0⟩).2.2

/-- C5: for `frame_count ≥ 1` and `atlas_columns ≥ 1`, the clip built by
`AnimationClip::new` contains exactly the `frame_count` consecutive indices
starting at `row * atlas_columns`. -/
theorem make_clip_contains_exact (row frame_count atlas_columns : Nat)
    (hfc : 1 ≤ frame_count) (hcols : 1 ≤ atlas_columns) (idx : Nat) :
    (AnimationClip.new row frame_count atlas_columns).contains idx = true ↔
      row * atlas_columns ≤ idx ∧ idx < row * atlas_columns + frame_count := by
  simp only [AnimationClip.new, AnimationClip.contains, decide_eq_true_eq]
  omega

theorem make_clip_contains_exact_witness :
    (AnimationClip.new 2 4 6).contains 13 = true :=
  (make_clip_contains_exact 2 4 6 (by decide) (by decide) 13).mpr (by decide)

/-- C6: for every clip with `first ≤ last`, `next last = first` and for every
index in `[first, last)`, `next idx = idx + 1` — looping with no skips and no
overshoot. -/
theorem clip_advance_loops (c : AnimationClip) (h : c.first ≤ c.last) :
    c.next c.last = c.first ∧
    ∀ idx, c.first ≤ idx → idx < c.last → c.next idx = idx + 1 := by
  refine ⟨by simp [AnimationClip.next], fun idx h1 h2 => ?_⟩
  unfold AnimationClip.next
  rw [if_neg (by omega)]

theorem clip_advance_loops_witness :
    (AnimationClip.new 2 4 6).next 15 = 12 ∧
    (AnimationClip.new 2 4 6).next 13 = 14 := by
  have h := clip_advance_loops (AnimationClip.new 2 4 6) (by decide)
  exact ⟨h.1, h.2 13 (by decide) (by decide)⟩

/-- Helper: under a successful kind lookup, `get_clip` yields the clip built
from the definition, whose bounds satisfy `first ≤ last` when the definition
has at least one frame. -/
theorem get_clip_eq (animated : AnimationController) (config : CharacterEntry)
    (d : AnimationDefinition)
    (hd : config.animations animated.current_animation = some d) :
    animated.get_clip config =
      some (AnimationClip.new
        (if d.directional then d.start_row + animated.facing.direction_index
         else d.start_row)
        d.frame_count config.atlas_columns) := by
  simp [AnimationController.get_clip, hd]

theorem clip_new_first_le_last (row frame_count atlas_columns : Nat)
    (hfc : 1 ≤ frame_count) :
    (AnimationClip.new row frame_count atlas_columns).first ≤
      (AnimationClip.new row frame_count atlas_columns).last := by
  simp only [AnimationClip.new]
  omega

theorem clampFrame_bounds (clip : AnimationClip) (index0 : Nat) (timer : Timer)
    (hfl : clip.first ≤ clip.last) :
    clip.first ≤ (clampFrame clip index0 timer).1 ∧
      (clampFrame clip index0 timer).1 ≤ clip.last := by
  by_cases h : clip.first ≤ index0 ∧ index0 ≤ clip.last
  · simpa [clampFrame, AnimationClip.contains, h] using h
  · simp [clampFrame, AnimationClip.contains, h, AnimationClip.start, hfl]

/-- C1: for every entity whose clip resolves (atlas present, current kind in
the config, with the data-model invariant `frame_count ≥ 1`), one invocation
of the update procedure leaves the frame index inside the resolved clip's
inclusive `[first, last]` range — for every starting index, every flag
combination and every delta-time. -/
theorem animate_frame_in_clip (delta : Nat) (animated : AnimationController)
    (state : AnimationState) (timer : Timer) (index0 : Nat)
    (config : CharacterEntry) (d : AnimationDefinition)
    (hd : config.animations animated.current_animation = some d)
    (hfc : 1 ≤ d.frame_count) :
    ∃ clip out, animated.get_clip config = some clip ∧
      animateEntity delta animated state timer (some index0) config = some out ∧
      clip.first ≤ out.atlasIndex ∧ out.atlasIndex ≤ clip.last := by
  have hclip := get_clip_eq animated config d hd
  set clip := AnimationClip.new
    (if d.directional then d.start_row + animated.facing.direction_index
     else d.start_row) d.frame_count config.atlas_columns with hcdef
  have hfl : clip.first ≤ clip.last := clip_new_first_le_last _ _ _ hfc
  have hin := clampFrame_bounds clip index0 timer hfl
  have hstep : ∃ out,
      animateEntity delta animated state timer (some index0) config = some out ∧
      clip.first ≤ out.atlasIndex ∧ out.atlasIndex ≤ clip.last := by
    simp only [animateEntity, hclip, hd]
    split
    · exact ⟨_, rfl, by simpa [AnimationClip.start] using hfl⟩
    · split
      · split
        · refine ⟨_, rfl, ?_⟩
          simp only [AnimationClip.next]
          split
          · simpa using hfl
          · omega
        · exact ⟨_, rfl, hin⟩
      · split
        · exact ⟨_, rfl, by simpa [AnimationClip.start] using hfl⟩
        · exact ⟨_, rfl, hin⟩
  obtain ⟨out, hout, hb⟩ := hstep
  exact ⟨clip, out, hclip, hout, hb⟩

theorem animate_frame_in_clip_witness :
    ∃ clip out,
      (AnimationController.mk AnimationType.walk Facing.down).get_clip
        (CharacterEntry.mk 6 (fun k => match k with
          | AnimationType.walk =>
              some (AnimationDefinition.mk 0 4 100000000 true)
          | AnimationType.jump => none)) = some clip ∧
      animateEntity 50000000
        (AnimationController.mk AnimationType.walk Facing.down)
        (AnimationState.mk true true false false)
        (Timer.mk 100000000 0 0) (some 99)
        (CharacterEntry.mk 6 (fun k => match k with
          | AnimationType.walk =>
              some (AnimationDefinition.mk 0 4 100000000 true)
          | AnimationType.jump => none)) = some out ∧
      clip.first ≤ out.atlasIndex ∧ out.atlasIndex ≤ clip.last :=
  animate_frame_in_clip 50000000
    (AnimationController.mk AnimationType.walk Facing.down)
    (AnimationState.mk true true false false)
    (Timer.mk 100000000 0 0) 99
    (CharacterEntry.mk 6 (fun k => match k with
      | AnimationType.walk => some (AnimationDefinition.mk 0 4 100000000 true)
      | AnimationType.jump => none))
    (AnimationDefinition.mk 0 4 100000000 true) rfl (by decide)

/-- C7: when `started_moving` and `started_jumping` hold in the same tick,
one update invocation is exactly a single reset: frame index at the clip's
first frame, timer duration set to the current kind's `frame_time`, elapsed
accumulator (and finished signal) zeroed — no double-reset artifacts. -/
theorem transition_priority_single_reset (delta : Nat)
    (animated : AnimationController) (state : AnimationState) (timer : Timer)
    (index0 : Nat) (config : CharacterEntry) (d : AnimationDefinition)
    (hd : config.animations animated.current_animation = some d)
    (hm : state.is_moving = true) (hwm : state.was_moving = false)
    (hj : state.is_jumping = true) (hwj : state.was_jumping = false) :
    ∃ clip, animated.get_clip config = some clip ∧
      animateEntity delta animated state timer (some index0) config =
        some { atlasIndex := clip.start,
               timer := { duration := d.frame_time, elapsed := 0,
                          finishedCount := 0 } } := by
  have hclip := get_clip_eq animated config d hd
  refine ⟨_, hclip, ?_⟩
  simp [animateEntity, hclip, hd, hm, hwm, hj, hwj, Timer.set_duration,
    Timer.reset]

theorem transition_priority_single_reset_witness :
    ∃ clip,
      (AnimationController.mk AnimationType.walk Facing.down).get_clip
        (CharacterEntry.mk 6 (fun k => match k with
          | AnimationType.walk =>
              some (AnimationDefinition.mk 0 4 100000000 true)
          | AnimationType.jump => none)) = some clip ∧
      animateEntity 7
        (AnimationController.mk AnimationType.walk Facing.down)
        (AnimationState.mk true false true false)
        (Timer.mk 55 3 1) (some 13)
        (CharacterEntry.mk 6 (fun k => match k with
          | AnimationType.walk =>
              some (AnimationDefinition.mk 0 4 100000000 true)
          | AnimationType.jump => none)) =
        some { atlasIndex := clip.start,
               timer := { duration := 100000000, elapsed := 0,
                          finishedCount := 0 } } :=
  transition_priority_single_reset 7
    (AnimationController.mk AnimationType.walk Facing.down)
    (AnimationState.mk true false true false)
    (Timer.mk 55 3 1) 13
    (CharacterEntry.mk 6 (fun k => match k with
      | AnimationType.walk => some (AnimationDefinition.mk 0 4 100000000 true)
      | AnimationType.jump => none))
    (AnimationDefinition.mk 0 4 100000000 true) rfl rfl rfl rfl rfl

/-- C8: with `is_moving = is_jumping = false`, no transition pending
(`was_moving = was_jumping = false`) and a frame index inside the clip, the
update is idempotent: it pins the frame index at the clip's first frame and
never touches the timer, and invoking it again from the result changes
nothing. -/
theorem idle_branch_idempotent (delta : Nat) (animated : AnimationController)
    (state : AnimationState) (timer : Timer) (index0 : Nat)
    (config : CharacterEntry) (d : AnimationDefinition) (clip : AnimationClip)
    (hd : config.animations animated.current_animation = some d)
    (hclip : animated.get_clip config = some clip)
    (hm : state.is_moving = false) (hwm : state.was_moving = false)
    (hj : state.is_jumping = false) (hwj : state.was_jumping = false)
    (hin : clip.contains index0 = true) :
    animateEntity delta animated state timer (some index0) config =
      some { atlasIndex := clip.start, timer := timer } ∧
    animateEntity delta animated state timer (some clip.start) config =
      some { atlasIndex := clip.start, timer := timer } := by
  have hfl : clip.first ≤ clip.last := by
    rw [AnimationClip.contains, decide_eq_true_eq] at hin
    omega
  have hin2 : clip.contains clip.start = true := by
    rw [AnimationClip.contains, AnimationClip.start, decide_eq_true_eq]
    exact ⟨le_refl _, hfl⟩
  constructor
  · by_cases he : index0 = clip.start
    · simp [animateEntity, hclip, hd, hm, hwm, hj, hwj, clampFrame, hin, hin2,
        he]
    · simp [animateEntity, hclip, hd, hm, hwm, hj, hwj, clampFrame, hin, he]
  · simp [animateEntity, hclip, hd, hm, hwm, hj, hwj, clampFrame, hin2]

theorem idle_branch_idempotent_witness :
    animateEntity 123456789
      (AnimationController.mk AnimationType.walk Facing.down)
      (AnimationState.mk false false false false)
      (Timer.mk 100000000 42 0) (some 14)
      (CharacterEntry.mk 6 (fun k => match k with
        | AnimationType.walk => some (AnimationDefinition.mk 0 4 100000000 true)
        | AnimationType.jump => none)) =
      some { atlasIndex := 12, timer := Timer.mk 100000000 42 0 } ∧
    animateEntity 123456789
      (AnimationController.mk AnimationType.walk Facing.down)
      (AnimationState.mk false false false false)
      (Timer.mk 100000000 42 0) (some 12)
      (CharacterEntry.mk 6 (fun k => match k with
        | AnimationType.walk => some (AnimationDefinition.mk 0 4 100000000 true)
        | AnimationType.jump => none)) =
      some { atlasIndex := 12, timer := Timer.mk 100000000 42 0 } :=
  idle_branch_idempotent 123456789
    (AnimationController.mk AnimationType.walk Facing.down)
    (AnimationState.mk false false false false)
    (Timer.mk 100000000 42 0) 14
    (CharacterEntry.mk 6 (fun k => match k with
      | AnimationType.walk => some (AnimationDefinition.mk 0 4 100000000 true)
      | AnimationType.jump => none))
    (AnimationDefinition.mk 0 4 100000000 true)
    (AnimationClip.mk 12 15) rfl rfl rfl rfl rfl rfl (by decide)

/-- C9: the safety-clamp step, run before transition detection and reading
none of the motion flags (so its effect is independent of the
transition-detection branch), snaps an out-of-range frame index to the
clip's first frame and resets the timer's elapsed accumulator (and finished
signal) to zero, leaving the timer's duration unchanged. -/
theorem safety_clamp_snaps (clip : AnimationClip) (index0 : Nat)
    (timer : Timer) (h : clip.contains index0 = false) :
    clampFrame clip index0 timer =
      (clip.first, { timer with elapsed := 0, finishedCount := 0 }) ∧
    (clampFrame clip index0 timer).2.duration = timer.duration := by
  constructor
  · simp [clampFrame, h, AnimationClip.start, Timer.reset]
  · simp [clampFrame, h, Timer.reset]

theorem safety_clamp_snaps_witness :
    clampFrame (AnimationClip.mk 18 21) 14 (Timer.mk 100000000 42 1) =
      (18, Timer.mk 100000000 0 0) ∧
    (clampFrame (AnimationClip.mk 18 21) 14 (Timer.mk 100000000 42 1)).2.duration
      = 100000000 :=
  safety_clamp_snaps (AnimationClip.mk 18 21) 14 (Timer.mk 100000000 42 1)
    (by decide)

/-- C10: in the steady-state animating branch (no flag transition, moving or
jumping, frame already inside the clip) a single update invocation moves the
frame index by at most one step for every delta-time: the result is either
the old index or `next` of it — never a multi-frame catch-up, even when the
delta spans several per-frame durations. -/
theorem steady_state_single_step (delta : Nat)
    (animated : AnimationController) (state : AnimationState) (timer : Timer)
    (index0 : Nat) (config : CharacterEntry) (d : AnimationDefinition)
    (clip : AnimationClip)
    (hd : config.animations animated.current_animation = some d)
    (hclip : animated.get_clip config = some clip)
    (hm : state.is_moving = state.was_moving)
    (hj : state.is_jumping = state.was_jumping)
    (hsa : state.is_moving = true ∨ state.is_jumping = true)
    (hin : clip.contains index0 = true) :
    ∃ out,
      animateEntity delta animated state timer (some index0) config = some out ∧
      (out.atlasIndex = index0 ∨ out.atlasIndex = clip.next index0) := by
  have hch : (state.is_moving && !state.was_moving
      || state.is_jumping && !state.was_jumping
      || !state.is_moving && state.was_moving
      || !state.is_jumping && state.was_jumping) = false := by
    rw [← hm, ← hj]
    cases state.is_moving <;> cases state.is_jumping <;> rfl
  have hsa' : (state.is_jumping || state.is_moving) = true := by
    rcases hsa with h | h <;> simp [h]
  by_cases hf : (timer.tick delta).just_finished = true
  · refine ⟨{ atlasIndex := clip.next index0, timer := timer.tick delta }, ?_,
      Or.inr rfl⟩
    simp [animateEntity, hclip, hd, clampFrame, hin, hch, hsa', hf]
  · refine ⟨{ atlasIndex := index0, timer := timer.tick delta }, ?_,
      Or.inl rfl⟩
    simp [animateEntity, hclip, hd, clampFrame, hin, hch, hsa', hf]

theorem steady_state_single_step_witness :
    ∃ out,
      animateEntity 250000000
        (AnimationController.mk AnimationType.walk Facing.down)
        (AnimationState.mk true true false false)
        (Timer.mk 100000000 0 0) (some 14)
        (CharacterEntry.mk 6 (fun k => match k with
          | AnimationType.walk =>
              some (AnimationDefinition.mk 0 4 100000000 true)
          | AnimationType.jump => none)) = some out ∧
      (out.atlasIndex = 14 ∨
        out.atlasIndex = (AnimationClip.mk 12 15).next 14) :=
  steady_state_single_step 250000000
    (AnimationController.mk AnimationType.walk Facing.down)
    (AnimationState.mk true true false false)
    (Timer.mk 100000000 0 0) 14
    (CharacterEntry.mk 6 (fun k => match k with
      | AnimationType.walk => some (AnimationDefinition.mk 0 4 100000000 true)
      | AnimationType.jump => none))
    (AnimationDefinition.mk 0 4 100000000 true)
    (AnimationClip.mk 12 15) rfl rfl rfl rfl (Or.inl rfl) (by decide)

/-- C2 counterexample: with a zero-frame-count Walk definition (start_row 0,
atlas_columns 6) the update procedure does **not** skip the entity — it
returns an updated result rather than `none` — and the `usize` computation
`first + frame_count - 1` inside `AnimationClip::new` underflows
(`row * atlas_columns + frame_count = 0`), i.e. clip construction does fail
(a panic in debug builds), contrary to the claim. -/
theorem zero_frame_count_claim_false :
    animateEntity 0 (AnimationController.mk AnimationType.walk Facing.down)
        (AnimationState.mk false false false false) (Timer.mk 100000000 0 0)
        (some 0)
        (CharacterEntry.mk 6 (fun k => match k with
          | AnimationType.walk =>
              some (AnimationDefinition.mk 0 0 100000000 false)
          | AnimationType.jump => none)) ≠ none ∧
    AnimationClip.clipNewUnderflows 0 0 6 = true := by
  constructor
  · decide
  · decide

/-- C2 amended: `get_clip` performs no `frame_count` check at all — whenever
the current kind is present in the config the entity is processed, not
skipped, whatever the frame count; and the clip-construction subtraction
underflows exactly when `row * atlas_columns + frame_count = 0`. -/
theorem get_clip_ignores_frame_count (animated : AnimationController)
    (config : CharacterEntry) (d : AnimationDefinition)
    (hd : config.animations animated.current_animation = some d) :
    (animated.get_clip config).isSome = true ∧
    ∀ row frame_count atlas_columns : Nat,
      AnimationClip.clipNewUnderflows row frame_count atlas_columns = true ↔
        row * atlas_columns + frame_count = 0 := by
  refine ⟨by simp [AnimationController.get_clip, hd], ?_⟩
  intro row frame_count atlas_columns
  simp [AnimationClip.clipNewUnderflows]

theorem get_clip_ignores_frame_count_witness :
    ((AnimationController.mk AnimationType.walk Facing.down).get_clip
      (CharacterEntry.mk 6 (fun k => match k with
        | AnimationType.walk =>
            some (AnimationDefinition.mk 0 0 100000000 false)
        | AnimationType.jump => none))).isSome = true ∧
    ∀ row frame_count atlas_columns : Nat,
      AnimationClip.clipNewUnderflows row frame_count atlas_columns = true ↔
        row * atlas_columns + frame_count = 0 :=
  get_clip_ignores_frame_count
    (AnimationController.mk AnimationType.walk Facing.down)
    (CharacterEntry.mk 6 (fun k => match k with
      | AnimationType.walk => some (AnimationDefinition.mk 0 0 100000000 false)
      | AnimationType.jump => none))
    (AnimationDefinition.mk 0 0 100000000 false) rfl

/-- C3: `CharactersPlugin::build` registers both `animate_characters` and
`update_animation_flags` on the `Update` schedule, but attaches no ordering
constraint whatsoever between them (the systems are added as a plain tuple,
without `.chain()`, `.before()` or `.after()`): the constraint set is empty,
so the scheduler is free to run the Flag Commit step before the Animation
Update step in any tick — the strictly-after ordering the claim states is
not enforced by the code. -/
theorem flag_commit_not_ordered_after_update :
    SystemId.animate_characters ∈ charactersPluginUpdateSystems ∧
    SystemId.update_animation_flags ∈ charactersPluginUpdateSystems ∧
    (SystemId.animate_characters, SystemId.update_animation_flags) ∉
      charactersPluginOrderingConstraints ∧
    charactersPluginOrderingConstraints = [] := by
  refine ⟨by decide, by decide, by decide, rfl⟩
